import Mathlib

/-!
Shallow embedding of the `ArtificialRetina` motion-and-approach detector
(`Artificiaal retina.py`).

The repository's per-frame pipeline is: downsample/grayscale the captured
frame, compute a difference-of-Gaussians contrast map (visualization only),
maintain an exponentially adapted background average, threshold and dilate
the absolute difference to a foreground mask, pick the largest connected
component above a minimum area as the focus of attention, and update a
bounded-history temporal tracker that yields a lateral speed and a looming
state, from which a danger flag and a display color are derived.

External OpenCV/NumPy image primitives (`cv2.resize`, `cv2.GaussianBlur`,
`cv2.findContours`, ...) are not code of this repository; they are modelled
as parameters (the `CVOps` structure) operating on abstract image tokens.
Everything the repository itself computes - the tracker arithmetic, the
focus-selection loop, the coordinate scaling, the classification - is
translated directly from the source.  Python floats are idealized as exact
rationals/reals; Python ints as `Int`.
-/

/-- Abstract image content token; all image-to-image operations are
external library calls, so their carrier can stay opaque to the logic. -/
abbrev Image : Type := Nat

/-- A captured frame: `rows = frame.shape[0]`, `cols = frame.shape[1]`,
plus abstract pixel content. -/
structure Frame where
  rows : Int
  cols : Int
  data : Nat
deriving DecidableEq

/-- One external connected component as the repository observes it:
`cv2.contourArea cnt` (a float, low-resolution pixels) and
`cv2.boundingRect cnt` (low-resolution box `x, y, w, h`). -/
structure Contour where
  area : Rat
  x : Int
  y : Int
  w : Int
  h : Int
deriving DecidableEq

/-- `self.RETINA_W` -/
def RETINA_W : Int := 320

/-- `self.RETINA_H` -/
def RETINA_H : Int := 240

/-- `self.MIN_AREA` - sensitivity threshold (low-resolution pixels). -/
def MIN_AREA : Rat := 800

/-- `self.ADAPTATION_RATE` -/
def ADAPTATION_RATE : Rat := 0.02

/-- `self.HISTORY_LEN` - capacity of both deques. -/
def HISTORY_LEN : Nat := 5

/-- `self.PIXEL_TO_METER_METRIC` - calibration constant for speed. -/
def PIXEL_TO_METER_METRIC : Real := 0.05

/-- Python `collections.deque(maxlen=n).append x`: the new element goes to
the right, and entries beyond the capacity are evicted from the left. -/
def dequeAppend (maxlen : Nat) (xs : List α) (x : α) : List α :=
  let ys := xs ++ [x]
  if maxlen < ys.length then ys.drop (ys.length - maxlen) else ys

/-- `np.mean` of a list of integers, as an exact rational. -/
def npMean (l : List Int) : Rat :=
  (l.sum : Rat) / (l.length : Rat)

/-- Python `int(q)` on a float: truncation toward zero. -/
def pytrunc (q : Rat) : Int :=
  if 0 ≤ q then ⌊q⌋ else ⌈q⌉

/-- Does `needle` occur at the head of `hay`? (helper for Python `in`). -/
def charsStartWith : List Char → List Char → Bool
  | [], _ => true
  | _ :: _, [] => false
  | a :: as, b :: bs => a == b && charsStartWith as bs

/-- Does `needle` occur anywhere in `hay`? (helper for Python `in`). -/
def charsContain (needle : List Char) : List Char → Bool
  | [] => needle.isEmpty
  | c :: cs => charsStartWith needle (c :: cs) || charsContain needle cs

/-- Python's substring test `needle in hay` on strings. -/
def pyIn (needle hay : String) : Bool :=
  charsContain needle.data hay.data

/-- The mutable fields of the `ArtificialRetina` object that the per-frame
logic reads and writes: the background accumulator and the two bounded
history deques.  (`prev_time` is represented by passing the elapsed
`dt = current_time - prev_time` into each call.) -/
structure RetinaState where
  avg_frame : Option Image
  position_history : List (Int × Int)
  area_history : List Int
deriving DecidableEq

/-- `ArtificialRetina.__init__`: no background yet, empty histories. -/
def initState : RetinaState :=
  { avg_frame := none, position_history := [], area_history := [] }

/-- `ArtificialRetina.calculate_dynamics(center, area)`.

`dt` is the elapsed wall-clock time `current_time - self.prev_time` of this
call.  Returns the updated object state together with the pair the Python
method returns: `(speed, looming_state)`.  `np.sqrt` is modelled by
`Real.sqrt`, so the speed lives in `Real`; everything else is exact. -/
noncomputable def calculate_dynamics (s : RetinaState) (dt : Rat)
    (center : Int × Int) (area : Int) : RetinaState × Real × String :=
  if dt = 0 then (s, 0, "Static")
  else
    let pos' := dequeAppend HISTORY_LEN s.position_history center
    let area' := dequeAppend HISTORY_LEN s.area_history area
    let s' := { s with position_history := pos', area_history := area' }
    if pos'.length < 2 then (s', 0, "Analyzing...")
    else
      let start_pos := pos'.headD (0, 0)
      let curr_pos := pos'.getLastD (0, 0)
      let dx : Int := curr_pos.1 - start_pos.1
      let dy : Int := curr_pos.2 - start_pos.2
      let distance_pixels : Real := Real.sqrt ((dx : Real) ^ 2 + (dy : Real) ^ 2)
      let speed : Real :=
        distance_pixels * PIXEL_TO_METER_METRIC / ((dt : Real) * (pos'.length : Real))
      let avg_past_area : Rat := npMean area'.dropLast
      let area_delta : Rat := (area : Rat) - avg_past_area
      let looming_state : String :=
        if area_delta > 50 then "APPROACHING !!!"
        else if area_delta < -50 then "Receding"
        else "Stationary"
      (s', speed, looming_state)

/-- The focus-of-attention scan of `process_visual_field`: Python's

    for cnt in contours:
        area = cv2.contourArea(cnt)
        if area > self.MIN_AREA and area > max_area:
            max_area = area
            focus_cnt = cnt

with the running `focus_cnt` / `max_area` made explicit accumulators. -/
def focusLoop : List Contour → Option Contour → Rat → Option Contour
  | [], focus_cnt, _ => focus_cnt
  | cnt :: rest, focus_cnt, max_area =>
    if cnt.area > MIN_AREA ∧ cnt.area > max_area
    then focusLoop rest (some cnt) cnt.area
    else focusLoop rest focus_cnt max_area

/-- The Blob Extractor: scan the contour list starting from
`focus_cnt = None`, `max_area = 0`. -/
def selectFocus (contours : List Contour) : Option Contour :=
  focusLoop contours none 0

/-- Full characterization of the focus scan, by induction on the contour
list: either no contour beats the incoming accumulator and the scan
returns it unchanged, or the result is a qualifying contour that strictly
beats the incoming maximum, every earlier contour either is strictly
smaller or was already dominated, and no later contour exceeds it. -/
lemma focusLoop_char (cs : List Contour) : ∀ (acc : Option Contour) (m : Rat),
    (focusLoop cs acc m = acc ∧ ∀ c ∈ cs, ¬(c.area > MIN_AREA ∧ c.area > m)) ∨
    (∃ l₁ c l₂, cs = l₁ ++ c :: l₂ ∧ focusLoop cs acc m = some c ∧
      MIN_AREA < c.area ∧ m < c.area ∧
      (∀ d ∈ l₁, d.area < c.area ∨ d.area ≤ m) ∧
      (∀ d ∈ l₂, d.area ≤ c.area ∨ d.area ≤ MIN_AREA)) := by
  induction cs with
  | nil =>
    intro acc m
    exact Or.inl ⟨rfl, by simp⟩
  | cons x rest ih =>
    intro acc m
    by_cases hx : x.area > MIN_AREA ∧ x.area > m
    · have hred : focusLoop (x :: rest) acc m = focusLoop rest (some x) x.area := by
        simp [focusLoop, hx]
      rcases ih (some x) x.area with ⟨heq, hall⟩ |
        ⟨l₁, c, l₂, hsplit, heq, hqual, hgt, hl₁, hl₂⟩
      · refine Or.inr ⟨[], x, rest, rfl, by rw [hred, heq], hx.1, hx.2, by simp, ?_⟩
        intro d hd
        by_cases hdq : d.area ≤ MIN_AREA
        · exact Or.inr hdq
        · have h' := hall d hd
          push_neg at h'
          exact Or.inl (h' (lt_of_not_le hdq))
      · refine Or.inr ⟨x :: l₁, c, l₂, by rw [hsplit]; rfl, by rw [hred, heq], hqual,
          lt_trans hx.2 hgt, ?_, hl₂⟩
        intro d hd
        rcases List.mem_cons.mp hd with rfl | hd'
        · exact Or.inl hgt
        · rcases hl₁ d hd' with h | h
          · exact Or.inl h
          · exact Or.inl (lt_of_le_of_lt h hgt)
    · have hred : focusLoop (x :: rest) acc m = focusLoop rest acc m := by
        simp [focusLoop, hx]
      rcases ih acc m with ⟨heq, hall⟩ |
        ⟨l₁, c, l₂, hsplit, heq, hqual, hgt, hl₁, hl₂⟩
      · refine Or.inl ⟨by rw [hred, heq], ?_⟩
        intro c hc
        rcases List.mem_cons.mp hc with rfl | hc'
        · exact hx
        · exact hall c hc'
      · refine Or.inr ⟨x :: l₁, c, l₂, by rw [hsplit]; rfl, by rw [hred, heq], hqual, hgt, ?_, hl₂⟩
        intro d hd
        rcases List.mem_cons.mp hd with rfl | hd'
        · push_neg at hx
          by_cases hdq : d.area ≤ MIN_AREA
          · exact Or.inl (lt_of_le_of_lt hdq hqual)
          · exact Or.inr (hx (lt_of_not_le hdq))
        · exact hl₁ d hd'

/-- Whatever the Blob Extractor selects passed the minimum-area test. -/
lemma selectFocus_qual (cs : List Contour) (c : Contour)
    (h : selectFocus cs = some c) : MIN_AREA < c.area := by
  have h' : focusLoop cs none 0 = some c := h
  rcases focusLoop_char cs none 0 with ⟨heq, _⟩ |
    ⟨l₁, c', l₂, _, heq, hqual, _, _, _⟩
  · rw [heq] at h'
    exact absurd h' (by simp)
  · rw [heq] at h'
    injection h' with h''
    exact h'' ▸ hqual

/-- C5: a `calculate_dynamics` call with `dt == 0` returns speed `0` and
state `"Static"` and leaves the whole tracker state - in particular both
history buffers - unchanged: nothing is appended. -/
theorem zero_dt_keeps_state (s : RetinaState) (center : Int × Int) (area : Int) :
    calculate_dynamics s 0 center area = (s, 0, "Static") := by
  simp [calculate_dynamics]

/-- C1: when `dt ≠ 0` and at least two positions are buffered after the
append, the returned lateral speed is the Euclidean pixel distance between
the oldest (`position_history[0]`) and newest (`position_history[-1]`)
buffered positions, multiplied by the calibration constant `0.05`, divided
by `dt` times the number of buffered positions. -/
theorem lateral_speed_formula (s : RetinaState) (dt : Rat) (center : Int × Int)
    (area : Int) (hdt : dt ≠ 0)
    (hlen : 2 ≤ (dequeAppend HISTORY_LEN s.position_history center).length) :
    (calculate_dynamics s dt center area).2.1 =
      Real.sqrt
        (((((dequeAppend HISTORY_LEN s.position_history center).getLastD (0, 0)).1 -
            ((dequeAppend HISTORY_LEN s.position_history center).headD (0, 0)).1 : Int) : Real) ^ 2 +
         ((((dequeAppend HISTORY_LEN s.position_history center).getLastD (0, 0)).2 -
            ((dequeAppend HISTORY_LEN s.position_history center).headD (0, 0)).2 : Int) : Real) ^ 2) *
      (0.05 : Real) /
      ((dt : Real) * ((dequeAppend HISTORY_LEN s.position_history center).length : Real)) := by
  simp only [calculate_dynamics]
  rw [if_neg hdt, if_neg (not_lt.mpr hlen)]
  rfl

theorem lateral_speed_formula_witness :
    (1 : Rat) ≠ 0 ∧
    2 ≤ (dequeAppend HISTORY_LEN [((0 : Int), (0 : Int))] ((3 : Int), (4 : Int))).length ∧
    (calculate_dynamics ⟨none, [(0, 0)], [0]⟩ 1 (3, 4) 25).2.1 =
      Real.sqrt 25 * 0.05 / 2 := by
  refine ⟨by norm_num, by norm_num [dequeAppend, HISTORY_LEN], ?_⟩
  have h := lateral_speed_formula ⟨none, [(0, 0)], [0]⟩ 1 (3, 4) 25
    (by norm_num) (by norm_num [dequeAppend, HISTORY_LEN])
  rw [h]
  norm_num [dequeAppend, HISTORY_LEN]

/-- C2: when `dt ≠ 0` and at least two samples are buffered after the
append, the looming state is classified from
`area_delta = area - mean(area_history[:-1])` with thresholds `±50`
(`"APPROACHING !!!"` is how the source spells the Approaching state), and
the three scenario instances from the spec hold: area history
`[100,100,100,100]` and current area `160`, `40`, `120` give Approaching,
Receding and Stationary respectively. -/
theorem looming_classification :
    (∀ (s : RetinaState) (dt : Rat) (center : Int × Int) (area : Int), dt ≠ 0 →
      2 ≤ (dequeAppend HISTORY_LEN s.position_history center).length →
      2 ≤ (dequeAppend HISTORY_LEN s.area_history area).length →
      (calculate_dynamics s dt center area).2.2 =
        (if (area : Rat) - npMean (dequeAppend HISTORY_LEN s.area_history area).dropLast > 50
         then "APPROACHING !!!"
         else if (area : Rat) - npMean (dequeAppend HISTORY_LEN s.area_history area).dropLast < -50
         then "Receding"
         else "Stationary")) ∧
    (calculate_dynamics ⟨none, [(0,0),(0,0),(0,0),(0,0)], [100,100,100,100]⟩
      1 (0, 0) 160).2.2 = "APPROACHING !!!" ∧
    (calculate_dynamics ⟨none, [(0,0),(0,0),(0,0),(0,0)], [100,100,100,100]⟩
      1 (0, 0) 40).2.2 = "Receding" ∧
    (calculate_dynamics ⟨none, [(0,0),(0,0),(0,0),(0,0)], [100,100,100,100]⟩
      1 (0, 0) 120).2.2 = "Stationary" := by
  refine ⟨?_, ?_, ?_, ?_⟩
  · intro s dt center area hdt hpos _
    simp only [calculate_dynamics]
    rw [if_neg hdt, if_neg (not_lt.mpr hpos)]
  · norm_num [calculate_dynamics, dequeAppend, HISTORY_LEN, npMean]
  · norm_num [calculate_dynamics, dequeAppend, HISTORY_LEN, npMean]
  · norm_num [calculate_dynamics, dequeAppend, HISTORY_LEN, npMean]

theorem looming_classification_witness :
    (1 : Rat) ≠ 0 ∧
    2 ≤ (dequeAppend HISTORY_LEN [((0:Int),(0:Int)),(0,0),(0,0),(0,0)] ((0:Int),(0:Int))).length ∧
    2 ≤ (dequeAppend HISTORY_LEN [(100:Int),100,100,100] (160:Int)).length ∧
    (calculate_dynamics ⟨none, [(0,0),(0,0),(0,0),(0,0)], [100,100,100,100]⟩
      1 (0, 0) 160).2.2 = "APPROACHING !!!" := by
  refine ⟨by norm_num, by norm_num [dequeAppend, HISTORY_LEN],
    by norm_num [dequeAppend, HISTORY_LEN], ?_⟩
  have h := looming_classification.1
    ⟨none, [(0,0),(0,0),(0,0),(0,0)], [100,100,100,100]⟩ 1 (0, 0) 160
    (by norm_num) (by norm_num [dequeAppend, HISTORY_LEN])
    (by norm_num [dequeAppend, HISTORY_LEN])
  rw [h]
  norm_num [dequeAppend, HISTORY_LEN, npMean]

/-- C6 counterexample: a real call of `calculate_dynamics` (nonzero `dt`,
fewer than two buffered samples - exactly the first frame on which a focus
appears) returns the motion state `"Analyzing..."`, which is none of the
three looming values, however the Approaching state is spelled. -/
theorem motion_state_fourth_value :
    (calculate_dynamics initState 1 (0, 0) 0).2.2 = "Analyzing..." ∧
    "Analyzing..." ≠ "Stationary" ∧ "Analyzing..." ≠ "Approaching" ∧
    "Analyzing..." ≠ "APPROACHING !!!" ∧ "Analyzing..." ≠ "Receding" := by
  refine ⟨?_, by decide, by decide, by decide, by decide⟩
  norm_num [calculate_dynamics, dequeAppend, HISTORY_LEN, initState]

/-- C6 (amended): for every call whose elapsed time `dt` is non-negative
(wall clock not running backwards), the returned speed is non-negative;
the returned state is always one of the five source strings, and it is one
of the three looming values exactly on the calls that reach the looming
classification, i.e. when `dt ≠ 0` and at least two positions are buffered
after the append; otherwise it is `"Static"` or `"Analyzing..."`. -/
theorem speed_nonneg_state_classification (s : RetinaState) (dt : Rat)
    (center : Int × Int) (area : Int) (hdt : 0 ≤ dt) :
    0 ≤ (calculate_dynamics s dt center area).2.1 ∧
    ((calculate_dynamics s dt center area).2.2 = "Static" ∨
     (calculate_dynamics s dt center area).2.2 = "Analyzing..." ∨
     (calculate_dynamics s dt center area).2.2 = "Stationary" ∨
     (calculate_dynamics s dt center area).2.2 = "APPROACHING !!!" ∨
     (calculate_dynamics s dt center area).2.2 = "Receding") ∧
    (dt ≠ 0 → 2 ≤ (dequeAppend HISTORY_LEN s.position_history center).length →
      ((calculate_dynamics s dt center area).2.2 = "Stationary" ∨
       (calculate_dynamics s dt center area).2.2 = "APPROACHING !!!" ∨
       (calculate_dynamics s dt center area).2.2 = "Receding")) := by
  by_cases h0 : dt = 0
  · subst h0
    simp [calculate_dynamics]
  · by_cases h2 : (dequeAppend HISTORY_LEN s.position_history center).length < 2
    · have hv : calculate_dynamics s dt center area =
          ({ s with position_history := dequeAppend HISTORY_LEN s.position_history center,
                    area_history := dequeAppend HISTORY_LEN s.area_history area },
            0, "Analyzing...") := by
        simp only [calculate_dynamics]
        rw [if_neg h0, if_pos h2]
      rw [hv]
      exact ⟨le_refl 0, Or.inr (Or.inl rfl),
        fun _ hlen => absurd hlen (not_le.mpr h2)⟩
    · simp only [calculate_dynamics, if_neg h0, if_neg h2]
      refine ⟨?_, ?_, ?_⟩
      · apply div_nonneg
        · exact mul_nonneg (Real.sqrt_nonneg _) (by norm_num [PIXEL_TO_METER_METRIC])
        · apply mul_nonneg
          · exact_mod_cast hdt
          · positivity
      · by_cases hA : (area : Rat) -
            npMean (dequeAppend HISTORY_LEN s.area_history area).dropLast > 50
        · rw [if_pos hA]
          exact Or.inr (Or.inr (Or.inr (Or.inl rfl)))
        · rw [if_neg hA]
          by_cases hR : (area : Rat) -
              npMean (dequeAppend HISTORY_LEN s.area_history area).dropLast < -50
          · rw [if_pos hR]
            exact Or.inr (Or.inr (Or.inr (Or.inr rfl)))
          · rw [if_neg hR]
            exact Or.inr (Or.inr (Or.inl rfl))
      · intro _ _
        by_cases hA : (area : Rat) -
            npMean (dequeAppend HISTORY_LEN s.area_history area).dropLast > 50
        · rw [if_pos hA]
          exact Or.inr (Or.inl rfl)
        · rw [if_neg hA]
          by_cases hR : (area : Rat) -
              npMean (dequeAppend HISTORY_LEN s.area_history area).dropLast < -50
          · rw [if_pos hR]
            exact Or.inr (Or.inr rfl)
          · rw [if_neg hR]
            exact Or.inl rfl

theorem speed_nonneg_state_classification_witness :
    (0 : Rat) ≤ 1 ∧
    (0 ≤ (calculate_dynamics initState 1 (0, 0) 0).2.1 ∧
     ((calculate_dynamics initState 1 (0, 0) 0).2.2 = "Static" ∨
      (calculate_dynamics initState 1 (0, 0) 0).2.2 = "Analyzing..." ∨
      (calculate_dynamics initState 1 (0, 0) 0).2.2 = "Stationary" ∨
      (calculate_dynamics initState 1 (0, 0) 0).2.2 = "APPROACHING !!!" ∨
      (calculate_dynamics initState 1 (0, 0) 0).2.2 = "Receding") ∧
     ((1 : Rat) ≠ 0 →
      2 ≤ (dequeAppend HISTORY_LEN initState.position_history ((0:Int),(0:Int))).length →
      ((calculate_dynamics initState 1 (0, 0) 0).2.2 = "Stationary" ∨
       (calculate_dynamics initState 1 (0, 0) 0).2.2 = "APPROACHING !!!" ∨
       (calculate_dynamics initState 1 (0, 0) 0).2.2 = "Receding"))) :=
  ⟨by norm_num, speed_nonneg_state_classification initState 1 (0, 0) 0 (by norm_num)⟩

/-- C4: the Blob Extractor never emits a component whose (low-resolution
contour) area is below the 800-pixel sensitivity threshold; a lone blob of
area 799 yields no focus at all, while a lone blob of area 801 is
selected. -/
theorem min_area_filter :
    (∀ (cs : List Contour) (c : Contour), c ∈ cs → c.area < 800 →
      selectFocus cs ≠ some c) ∧
    selectFocus [⟨799, 0, 0, 0, 0⟩] = none ∧
    selectFocus [⟨801, 0, 0, 0, 0⟩] = some ⟨801, 0, 0, 0, 0⟩ := by
  refine ⟨?_, ?_, ?_⟩
  · intro cs c _ harea hsel
    have := selectFocus_qual cs c hsel
    rw [MIN_AREA] at this
    exact absurd harea (not_lt.mpr (le_of_lt this))
  · norm_num [selectFocus, focusLoop, MIN_AREA]
  · norm_num [selectFocus, focusLoop, MIN_AREA]

theorem min_area_filter_witness :
    (⟨500, 0, 0, 0, 0⟩ : Contour) ∈ [(⟨500, 0, 0, 0, 0⟩ : Contour)] ∧
    (⟨500, 0, 0, 0, 0⟩ : Contour).area < 800 ∧
    selectFocus [⟨500, 0, 0, 0, 0⟩] ≠ some ⟨500, 0, 0, 0, 0⟩ :=
  ⟨by simp, by norm_num, min_area_filter.1 [⟨500, 0, 0, 0, 0⟩] ⟨500, 0, 0, 0, 0⟩
    (by simp) (by norm_num)⟩

/-- C9: whenever some contour qualifies, the scan selects exactly one
focus, namely a qualifying contour that strictly exceeds every contour
enumerated before it (so the first among equal maximal areas) and is not
exceeded by any contour after it. -/
theorem first_max_selected (cs : List Contour)
    (h : ∃ c ∈ cs, MIN_AREA < c.area) :
    ∃ l₁ c l₂, cs = l₁ ++ c :: l₂ ∧ selectFocus cs = some c ∧
      MIN_AREA < c.area ∧
      (∀ d ∈ l₁, d.area < c.area) ∧ (∀ d ∈ l₂, d.area ≤ c.area) := by
  rcases focusLoop_char cs none 0 with ⟨_, hall⟩ |
    ⟨l₁, c, l₂, hsplit, heq, hqual, _, hl₁, hl₂⟩
  · obtain ⟨c, hc, hq⟩ := h
    have h0 : (0 : Rat) < c.area := lt_trans (by norm_num [MIN_AREA]) hq
    exact absurd ⟨hq, h0⟩ (hall c hc)
  · refine ⟨l₁, c, l₂, hsplit, heq, hqual, ?_, ?_⟩
    · intro d hd
      rcases hl₁ d hd with h' | h'
      · exact h'
      · exact lt_of_le_of_lt h' (lt_trans (by norm_num [MIN_AREA]) hqual)
    · intro d hd
      rcases hl₂ d hd with h' | h'
      · exact h'
      · exact le_of_lt (lt_of_le_of_lt h' hqual)

theorem first_max_selected_witness :
    (∃ c ∈ [(⟨900, 0, 0, 0, 0⟩ : Contour), ⟨900, 1, 1, 1, 1⟩], MIN_AREA < c.area) ∧
    (∃ l₁ c l₂, [(⟨900, 0, 0, 0, 0⟩ : Contour), ⟨900, 1, 1, 1, 1⟩] = l₁ ++ c :: l₂ ∧
      selectFocus [⟨900, 0, 0, 0, 0⟩, ⟨900, 1, 1, 1, 1⟩] = some c ∧
      MIN_AREA < c.area ∧
      (∀ d ∈ l₁, d.area < c.area) ∧ (∀ d ∈ l₂, d.area ≤ c.area)) :=
  ⟨⟨⟨900, 0, 0, 0, 0⟩, by simp, by norm_num [MIN_AREA]⟩,
   first_max_selected [⟨900, 0, 0, 0, 0⟩, ⟨900, 1, 1, 1, 1⟩]
     ⟨⟨900, 0, 0, 0, 0⟩, by simp, by norm_num [MIN_AREA]⟩⟩

/-- Helper: the effect of a `dt == 0` call on the tracker state. -/
lemma calculate_dynamics_dt0 (s : RetinaState) (center : Int × Int) (area : Int) :
    calculate_dynamics s 0 center area = (s, 0, "Static") := by
  simp [calculate_dynamics]

/-- Helper: whenever `dt ≠ 0`, `calculate_dynamics` appends the new center
and area to the two deques (whether or not enough history is present for a
velocity), and changes nothing else in the object state. -/
lemma calculate_dynamics_state (s : RetinaState) (dt : Rat) (center : Int × Int)
    (area : Int) (hdt : dt ≠ 0) :
    (calculate_dynamics s dt center area).1 =
      { s with position_history := dequeAppend HISTORY_LEN s.position_history center,
               area_history := dequeAppend HISTORY_LEN s.area_history area } := by
  simp only [calculate_dynamics]
  rw [if_neg hdt]
  by_cases h2 : (dequeAppend HISTORY_LEN s.position_history center).length < 2
  · rw [if_pos h2]
  · rw [if_neg h2]

/-- The external OpenCV primitives `process_visual_field` calls, as opaque
parameters over abstract image tokens.  `findContours` bundles
`cv2.findContours` together with the `cv2.contourArea` and
`cv2.boundingRect` observations the code makes of each contour. -/
structure CVOps where
  resize : Frame → Int → Int → Frame
  cvtColor : Frame → Image
  gaussianBlur : Image → Nat → Image
  subtract : Image → Image → Image
  asFloat : Image → Image
  accumulateWeighted : Image → Image → Rat → Image
  convertScaleAbs : Image → Image
  absdiff : Image → Image → Image
  threshold : Image → Rat → Rat → Image
  dilate : Image → Nat → Image
  findContours : Image → List Contour

/-- `ArtificialRetina.mimic_ganglion_cells`: difference of a sharp (3x3)
and a blurry (13x13) Gaussian, `cv2.subtract(g1, g2)`. -/
def mimic_ganglion_cells (cv : CVOps) (gray_frame : Image) : Image :=
  cv.subtract (cv.gaussianBlur gray_frame 3) (cv.gaussianBlur gray_frame 13)

/-- Line `is_danger = (speed > 50 or "APPROACHING" in motion_state)`. -/
def is_danger (speed : Real) (motion_state : String) : Prop :=
  speed > 50 ∨ pyIn "APPROACHING" motion_state = true

noncomputable instance (speed : Real) (motion_state : String) :
    Decidable (is_danger speed motion_state) :=
  inferInstanceAs (Decidable (speed > 50 ∨ pyIn "APPROACHING" motion_state = true))

/-- The per-focus values the loop draws on the annotated frame. -/
structure FocusOutput where
  X : Int
  Y : Int
  W : Int
  H : Int
  speed : Real
  motion_state : String
  color : Int × Int × Int

/-- Everything one loop iteration of `process_visual_field` makes
observable: the ganglion visualization layer, the dilated foreground mask
(absent on the seeding cycle), the selected contour and the annotation
data (absent when no blob qualifies). -/
structure CycleOutput where
  bio_view : Image
  thresh : Option Image
  focus_cnt : Option Contour
  focus : Option FocusOutput

/-- One iteration of the `while True` loop of
`ArtificialRetina.process_visual_field`, from a successfully captured
`frame`: downsample and grayscale, compute the ganglion view, seed the
background on the first cycle (and skip the rest via `continue`),
otherwise adapt the background, build the dilated foreground mask, select
the focus of attention, and either run the tracker and classification or
clear both history deques. -/
noncomputable def process_cycle (cv : CVOps) (s : RetinaState) (frame : Frame)
    (dt : Rat) : RetinaState × CycleOutput :=
  let small_frame := cv.resize frame RETINA_W RETINA_H
  let gray := cv.cvtColor small_frame
  let bio_view := mimic_ganglion_cells cv gray
  match s.avg_frame with
  | none =>
    ({ s with avg_frame := some (cv.asFloat gray) },
     { bio_view := bio_view, thresh := none, focus_cnt := none, focus := none })
  | some avg =>
    let avg' := cv.accumulateWeighted gray avg ADAPTATION_RATE
    let frame_delta := cv.absdiff gray (cv.convertScaleAbs avg')
    let thresh := cv.dilate (cv.threshold frame_delta 30 255) 4
    let contours := cv.findContours thresh
    match selectFocus contours with
    | none =>
      ({ avg_frame := some avg', position_history := [], area_history := [] },
       { bio_view := bio_view, thresh := some thresh, focus_cnt := none, focus := none })
    | some cnt =>
      let scale_x : Rat := (frame.cols : Rat) / (RETINA_W : Rat)
      let scale_y : Rat := (frame.rows : Rat) / (RETINA_H : Rat)
      let X := pytrunc ((cnt.x : Rat) * scale_x)
      let Y := pytrunc ((cnt.y : Rat) * scale_y)
      let W := pytrunc ((cnt.w : Rat) * scale_x)
      let H := pytrunc ((cnt.h : Rat) * scale_y)
      let center_point : Int × Int := (X + Int.fdiv W 2, Y + Int.fdiv H 2)
      let object_area : Int := W * H
      let s1 : RetinaState := { s with avg_frame := some avg' }
      let r := calculate_dynamics s1 dt center_point object_area
      let color : Int × Int × Int :=
        if is_danger r.2.1 r.2.2 then (0, 0, 255) else (0, 255, 0)
      (r.1,
       { bio_view := bio_view, thresh := some thresh, focus_cnt := some cnt,
         focus := some { X := X, Y := Y, W := W, H := H, speed := r.2.1,
                         motion_state := r.2.2, color := color } })

/-- Iterated loop cycles; each list entry is a captured frame together
with the wall-clock `dt` its tracker call observes. -/
noncomputable def runCycles (cv : CVOps) : RetinaState → List (Frame × Rat) → RetinaState
  | s, [] => s
  | s, (frame, dt) :: rest => runCycles cv (process_cycle cv s frame dt).1 rest

/-- The state invariant of the pipeline: both deques respect the capacity,
and before the background is seeded the deques are still empty. -/
def RetinaInv (s : RetinaState) : Prop :=
  s.position_history.length ≤ HISTORY_LEN ∧ s.area_history.length ≤ HISTORY_LEN ∧
  (s.avg_frame = none → s.position_history = [] ∧ s.area_history = [])

lemma dequeAppend_length_le (maxlen : Nat) (xs : List α) (x : α) :
    (dequeAppend maxlen xs x).length ≤ maxlen := by
  by_cases h : maxlen < (xs ++ [x]).length
  · simp only [dequeAppend, if_pos h, List.length_drop]
    omega
  · simp only [dequeAppend, if_neg h]
    omega

lemma initState_inv : RetinaInv initState :=
  ⟨by simp [initState, HISTORY_LEN], by simp [initState, HISTORY_LEN], fun _ => ⟨rfl, rfl⟩⟩

lemma process_cycle_inv (cv : CVOps) (s : RetinaState) (frame : Frame) (dt : Rat)
    (h : RetinaInv s) : RetinaInv (process_cycle cv s frame dt).1 := by
  cases hA : s.avg_frame with
  | none =>
    simp only [process_cycle, hA]
    exact ⟨h.1, h.2.1, by simp⟩
  | some avg =>
    simp only [process_cycle, hA]
    split
    · exact ⟨by simp, by simp, by simp⟩
    · by_cases hdt : dt = 0
      · subst hdt
        rw [calculate_dynamics_dt0]
        exact ⟨h.1, h.2.1, by simp⟩
      · rw [calculate_dynamics_state _ _ _ _ hdt]
        exact ⟨dequeAppend_length_le _ _ _, dequeAppend_length_le _ _ _, by simp⟩

lemma process_cycle_nofocus (cv : CVOps) (s : RetinaState) (frame : Frame) (dt : Rat)
    (h : RetinaInv s) (hf : (process_cycle cv s frame dt).2.focus = none) :
    (process_cycle cv s frame dt).1.position_history = [] ∧
    (process_cycle cv s frame dt).1.area_history = [] := by
  cases hA : s.avg_frame with
  | none =>
    simp only [process_cycle, hA]
    exact h.2.2 hA
  | some avg =>
    simp only [process_cycle, hA] at hf ⊢
    split at hf
    · exact ⟨rfl, rfl⟩
    · exact absurd hf (by simp)

lemma runCycles_inv (cv : CVOps) (inputs : List (Frame × Rat)) :
    ∀ (s : RetinaState), RetinaInv s → RetinaInv (runCycles cv s inputs) := by
  induction inputs with
  | nil => intro s h; exact h
  | cons p rest ih =>
    intro s h
    obtain ⟨f, dt⟩ := p
    exact ih _ (process_cycle_inv cv s f dt h)

/-- C3: starting from the freshly constructed object, after any number of
pipeline cycles both history deques hold at most `HISTORY_LEN = 5`
entries, and any further cycle that produces no focus annotation leaves
both deques with length 0. -/
theorem history_capacity_and_clearing (cv : CVOps) (inputs : List (Frame × Rat))
    (frame : Frame) (dt : Rat) :
    (runCycles cv initState inputs).position_history.length ≤ HISTORY_LEN ∧
    (runCycles cv initState inputs).area_history.length ≤ HISTORY_LEN ∧
    ((process_cycle cv (runCycles cv initState inputs) frame dt).2.focus = none →
      (process_cycle cv (runCycles cv initState inputs) frame dt).1.position_history.length = 0 ∧
      (process_cycle cv (runCycles cv initState inputs) frame dt).1.area_history.length = 0) := by
  have h := runCycles_inv cv inputs initState initState_inv
  refine ⟨h.1, h.2.1, fun hf => ?_⟩
  have hc := process_cycle_nofocus cv _ frame dt h hf
  exact ⟨by rw [hc.1]; rfl, by rw [hc.2]; rfl⟩

/-- A concrete instantiation of the external primitives, used to exercise
the pipeline theorems on closed inputs: every image operation returns a
fixed token and the mask always decomposes into one 900-pixel contour with
a 10x10 bounding box at (10, 10). -/
def cv0 : CVOps where
  resize := fun f _ _ => f
  cvtColor := fun _ => 0
  gaussianBlur := fun g _ => g
  subtract := fun a _ => a
  asFloat := fun g => g
  accumulateWeighted := fun _ d _ => d
  convertScaleAbs := fun i => i
  absdiff := fun a _ => a
  threshold := fun i _ _ => i
  dilate := fun i _ => i
  findContours := fun _ => [⟨900, 10, 10, 10, 10⟩]

/-- A concrete 640x480 captured frame. -/
def frame0 : Frame := ⟨480, 640, 0⟩

/-- A state whose background is already seeded and whose deques are empty:
the situation right after the first (seeding) cycle. -/
def s0 : RetinaState := ⟨some 0, [], []⟩

theorem history_capacity_and_clearing_witness :
    ((process_cycle cv0 initState frame0 1).2.focus = none) ∧
    (process_cycle cv0 initState frame0 1).1.position_history.length = 0 ∧
    (process_cycle cv0 initState frame0 1).1.area_history.length = 0 := by
  have hf : (process_cycle cv0 initState frame0 1).2.focus = none := rfl
  exact ⟨hf, (history_capacity_and_clearing cv0 [] frame0 1).2.2 hf⟩

/-- C7: the contrast filter is a pure function of the grayscale frame, and
replacing its two ingredients (the Gaussian blur and the subtraction) by
arbitrary other functions changes nothing except the visualization layer:
the new tracker/background state, the foreground mask, the selected blob
and the whole annotation output are identical. -/
theorem ganglion_noninterference (cv : CVOps) (g : Image → Nat → Image)
    (sub : Image → Image → Image) (s : RetinaState) (frame : Frame) (dt : Rat) :
    (process_cycle { cv with gaussianBlur := g, subtract := sub } s frame dt).1 =
      (process_cycle cv s frame dt).1 ∧
    (process_cycle { cv with gaussianBlur := g, subtract := sub } s frame dt).2.thresh =
      (process_cycle cv s frame dt).2.thresh ∧
    (process_cycle { cv with gaussianBlur := g, subtract := sub } s frame dt).2.focus_cnt =
      (process_cycle cv s frame dt).2.focus_cnt ∧
    (process_cycle { cv with gaussianBlur := g, subtract := sub } s frame dt).2.focus =
      (process_cycle cv s frame dt).2.focus ∧
    (process_cycle cv s frame dt).2.bio_view =
      mimic_ganglion_cells cv (cv.cvtColor (cv.resize frame RETINA_W RETINA_H)) := by
  refine ⟨?_, ?_, ?_, ?_, ?_⟩ <;>
    cases hA : s.avg_frame <;>
      simp only [process_cycle, hA, mimic_ganglion_cells] <;>
        first
        | rfl
        | (split <;> rfl)

/-- Helper: how the display color decodes the danger flag. -/
lemma danger_color_char (sp : Real) (st : String) :
    ((if is_danger sp st then ((0 : Int), (0 : Int), (255 : Int)) else (0, 255, 0)) =
        (0, 0, 255) ↔ is_danger sp st) ∧
    ((if is_danger sp st then ((0 : Int), (0 : Int), (255 : Int)) else (0, 255, 0)) =
        (0, 255, 0) ↔ ¬ is_danger sp st) := by
  by_cases hd : is_danger sp st
  · rw [if_pos hd]
    exact ⟨iff_of_true rfl hd, iff_of_false (by decide) (not_not_intro hd)⟩
  · rw [if_neg hd]
    exact ⟨iff_of_false (by decide) hd, iff_of_true rfl hd⟩

/-- C8: whenever a cycle produces an annotated focus, its color is the
warning color `(0,0,255)` exactly when the danger flag holds, the safe
color `(0,255,0)` exactly when it does not, and the danger flag is by
definition `speed > 50 or "APPROACHING" in motion_state` - a pure
function of the speed and looming state returned by the tracker. -/
theorem danger_flag_color (cv : CVOps) (s : RetinaState) (frame : Frame) (dt : Rat)
    (fo : FocusOutput) (hf : (process_cycle cv s frame dt).2.focus = some fo) :
    (fo.color = (0, 0, 255) ↔ is_danger fo.speed fo.motion_state) ∧
    (fo.color = (0, 255, 0) ↔ ¬ is_danger fo.speed fo.motion_state) ∧
    (is_danger fo.speed fo.motion_state ↔
      (fo.speed > 50 ∨ pyIn "APPROACHING" fo.motion_state = true)) := by
  cases hA : s.avg_frame with
  | none => exact absurd hf (by simp [process_cycle, hA])
  | some avg =>
    simp only [process_cycle, hA] at hf
    split at hf
    · exact absurd hf (by simp)
    · injection hf with hfo
      subst hfo
      exact ⟨(danger_color_char _ _).1, (danger_color_char _ _).2, Iff.rfl⟩

/-- C10: the quantity appended to the area history (and hence fed to the
looming classifier) is the full-resolution bounding-box area `W * H`
obtained by per-axis scaling and `int(...)` truncation of the
low-resolution box, while the 800-pixel filter acted on the low-resolution
contour area of the very same blob; on the concrete run the two measures
differ (400 vs 900). -/
theorem looming_area_is_bbox_area :
    (∀ (cv : CVOps) (s : RetinaState) (frame : Frame) (dt : Rat) (cnt : Contour),
      dt ≠ 0 → (process_cycle cv s frame dt).2.focus_cnt = some cnt →
      (process_cycle cv s frame dt).1.area_history =
        dequeAppend HISTORY_LEN s.area_history
          (pytrunc ((cnt.w : Rat) * ((frame.cols : Rat) / (RETINA_W : Rat))) *
           pytrunc ((cnt.h : Rat) * ((frame.rows : Rat) / (RETINA_H : Rat)))) ∧
      MIN_AREA < cnt.area) ∧
    ((process_cycle cv0 s0 frame0 1).2.focus_cnt = some ⟨900, 10, 10, 10, 10⟩ ∧
     (process_cycle cv0 s0 frame0 1).1.area_history = [400] ∧
     ((400 : Int) : Rat) ≠ (⟨900, 10, 10, 10, 10⟩ : Contour).area) := by
  constructor
  · intro cv s frame dt cnt hdt hfc
    cases hA : s.avg_frame with
    | none => exact absurd hfc (by simp [process_cycle, hA])
    | some avg =>
      simp only [process_cycle, hA] at hfc ⊢
      split at hfc
      · exact absurd hfc (by simp)
      · rename_i c heq
        injection hfc with hc
        subst hc
        simp only [heq]
        constructor
        · rw [calculate_dynamics_state _ _ _ _ hdt]
        · exact selectFocus_qual _ _ heq
  · refine ⟨?_, ?_, by norm_num⟩
    · norm_num [process_cycle, cv0, s0, frame0, selectFocus, focusLoop, MIN_AREA]
    · norm_num [process_cycle, cv0, s0, frame0, selectFocus, focusLoop, MIN_AREA,
        calculate_dynamics, dequeAppend, HISTORY_LEN, pytrunc, RETINA_W, RETINA_H]

lemma not_danger_analyzing : ¬ is_danger 0 "Analyzing..." := by
  intro h
  rcases h with h | h
  · norm_num at h
  · exact absurd h (by decide)

/-- The focus annotation the concrete run produces: a 10x10 low-res box at
(10,10) scaled by 2 on both axes, speed 0 and state `"Analyzing..."`
(only one position buffered yet), hence the safe color. -/
noncomputable def fo0 : FocusOutput :=
  ⟨20, 20, 20, 20, 0, "Analyzing...", (0, 255, 0)⟩

theorem danger_flag_color_witness :
    ((process_cycle cv0 s0 frame0 1).2.focus = some fo0) ∧
    ((fo0.color = (0, 0, 255) ↔ is_danger fo0.speed fo0.motion_state) ∧
     (fo0.color = (0, 255, 0) ↔ ¬ is_danger fo0.speed fo0.motion_state) ∧
     (is_danger fo0.speed fo0.motion_state ↔
       (fo0.speed > 50 ∨ pyIn "APPROACHING" fo0.motion_state = true))) := by
  have hf : (process_cycle cv0 s0 frame0 1).2.focus = some fo0 := by
    norm_num [process_cycle, cv0, s0, frame0, fo0, selectFocus, focusLoop, MIN_AREA,
      calculate_dynamics, dequeAppend, HISTORY_LEN, pytrunc, RETINA_W, RETINA_H,
      mimic_ganglion_cells]
    exact not_danger_analyzing
  exact ⟨hf, danger_flag_color cv0 s0 frame0 1 fo0 hf⟩

theorem looming_area_is_bbox_area_witness :
    (1 : Rat) ≠ 0 ∧
    ((process_cycle cv0 s0 frame0 1).1.area_history =
       dequeAppend HISTORY_LEN s0.area_history
         (pytrunc (((⟨900, 10, 10, 10, 10⟩ : Contour).w : Rat) *
             ((frame0.cols : Rat) / (RETINA_W : Rat))) *
          pytrunc (((⟨900, 10, 10, 10, 10⟩ : Contour).h : Rat) *
             ((frame0.rows : Rat) / (RETINA_H : Rat)))) ∧
     MIN_AREA < (⟨900, 10, 10, 10, 10⟩ : Contour).area) :=
  ⟨by norm_num,
   looming_area_is_bbox_area.1 cv0 s0 frame0 1 ⟨900, 10, 10, 10, 10⟩ (by norm_num)
     looming_area_is_bbox_area.2.1⟩
